import Mathlib

/-!
Verification of the conversational session engine of the dwelling-scribe
repository. The repository holds three variants of a `ChatConsole` component
plus a `ConnectionButton`:

* the speech-only variant (ChatConsole.tsx, first document): browser speech
  recognition with a 1.5 s auto-send timer after a final transcript;
* the pipecat final-only variant (src/unnamed/part_000): appends only final
  transcripts, sends typed messages through the transport;
* the thread-based reconciler variant (ChatConsole.tsx, third document):
  messages carry `threadId`/`status`, merged through `addOrUpdateMessage`.

Each TypeScript handler is embedded as a pure Lean function on an explicit
state. Wall clock times (`Date.now()`, `new Date()`) are passed in as a `now`
argument in milliseconds. `Math.random()`-based id freshness is modeled by a
nonce counter threaded through the state.
-/

namespace Dwelling

/-- The `type` field of a chat message: 'user' | 'bot'. -/
inductive Speaker where
  | user
  | bot
deriving DecidableEq

/-- The `messageType` field: 'text' | 'transcription' | 'audio'. -/
inductive MsgType where
  | text
  | transcription
  | audio
deriving DecidableEq

/-- The `status` field of the thread-based variant: 'interim' | 'final'. -/
inductive MsgStatus where
  | interim
  | final
deriving DecidableEq

/-- One entry of the message log (interface ChatMessage of the thread-based
variant, ChatConsole.tsx lines 1002-1010). Timestamps are milliseconds. -/
structure ChatMessage where
  id : String
  threadId : String
  type : Speaker
  content : String
  timestamp : Nat
  messageType : MsgType
  status : MsgStatus
deriving DecidableEq

/-- The argument of `addOrUpdateMessage`: a ChatMessage before the handler
stamps it with `timestamp: new Date()` (`Omit<ChatMessage, 'timestamp'>`). -/
structure NewMessage where
  id : String
  threadId : String
  type : Speaker
  content : String
  messageType : MsgType
  status : MsgStatus
deriving DecidableEq

/-- Stamping a NewMessage with the arrival clock, as
`{ ...newMessage, timestamp: new Date() }` does. -/
def NewMessage.withTimestamp (nm : NewMessage) (now : Nat) : ChatMessage :=
  { id := nm.id
    threadId := nm.threadId
    type := nm.type
    content := nm.content
    timestamp := now
    messageType := nm.messageType
    status := nm.status }

/-- JavaScript `String.prototype.trim` modeled over the character list. -/
def isWs (c : Char) : Bool :=
  c = ' ' || c = '\t' || c = '\n' || c = '\r'

/-- Drop leading and trailing whitespace characters. -/
def trimChars (l : List Char) : List Char :=
  ((l.dropWhile isWs).reverse.dropWhile isWs).reverse

/-- JS-style trim on strings. -/
def strTrim (s : String) : String :=
  String.mk (trimChars s.data)

/-- `Array.prototype.findIndex` returning an optional index. -/
def findIdxOpt (p : α → Bool) : List α → Option Nat
  | [] => none
  | x :: xs => if p x then some 0 else (findIdxOpt p xs).map (fun n => n + 1)

/-- In-place update of the element at an index (`updated[i] = ...`). -/
def modifyAt (f : α → α) : Nat → List α → List α
  | _, [] => []
  | 0, x :: xs => f x :: xs
  | n + 1, x :: xs => x :: modifyAt f n xs

/-- One step of a stable sort by timestamp: place `m` after every element
whose timestamp is less than or equal to its own. -/
def insertByTs (m : ChatMessage) : List ChatMessage → List ChatMessage
  | [] => [m]
  | x :: xs => if x.timestamp ≤ m.timestamp then x :: insertByTs m xs else m :: x :: xs

/-- `messages.sort((a, b) => a.timestamp.getTime() - b.timestamp.getTime())`.
JavaScript `Array.prototype.sort` is stable, and a stable sort by a total
preorder is unique as a function, so this left-fold insertion sort computes
exactly the source's sort. -/
def sortByTs (l : List ChatMessage) : List ChatMessage :=
  l.foldl (fun acc m => insertByTs m acc) []

/-- The lookup predicate of `addOrUpdateMessage` (lines 1106-1110): same
`threadId`, same `type` and same `messageType` as the incoming message. -/
def tupleMatch (tid : String) (sp : Speaker) (mt : MsgType) (m : ChatMessage) : Bool :=
  decide (m.threadId = tid) && decide (m.type = sp) && decide (m.messageType = mt)

/-- `addOrUpdateMessage` of the thread-based variant (lines 1099-1127):
look up an entry with the same (threadId, type, messageType); on a final
incoming message replace it wholesale and re-sort by timestamp, on an interim
one update its content in place, otherwise append and re-sort by timestamp. -/
def addOrUpdateMessage (now : Nat) (nm : NewMessage) (prev : List ChatMessage) :
    List ChatMessage :=
  match findIdxOpt (tupleMatch nm.threadId nm.type nm.messageType) prev with
  | some i =>
    if nm.status = MsgStatus.final then
      sortByTs (modifyAt (fun _ => nm.withTimestamp now) i prev)
    else
      modifyAt (fun m => { m with content := nm.content }) i prev
  | none => sortByTs (prev ++ [nm.withTimestamp now])

/-! ### Generic lemmas about the list helpers -/

theorem findIdxOpt_eq_none {p : α → Bool} {l : List α} :
    findIdxOpt p l = none ↔ ∀ x ∈ l, p x = false := by
  induction l with
  | nil => simp [findIdxOpt]
  | cons x xs ih =>
    by_cases hx : p x
    · simp [findIdxOpt, hx]
    · simp [findIdxOpt, hx, ih]

theorem findIdxOpt_append_cons {p : α → Bool} (l₁ : List α) (a : α) (l₂ : List α)
    (ha : p a = true) (h₁ : ∀ x ∈ l₁, p x = false) :
    findIdxOpt p (l₁ ++ a :: l₂) = some l₁.length := by
  induction l₁ with
  | nil => simp [findIdxOpt, ha]
  | cons x xs ih =>
    have hx : p x = false := h₁ x (by simp)
    have ihx := ih (fun y hy => h₁ y (by simp [hy]))
    simp [findIdxOpt, hx, ihx]

theorem findIdxOpt_split {p : α → Bool} {l : List α} {i : Nat}
    (h : findIdxOpt p l = some i) :
    ∃ l₁ a l₂, l = l₁ ++ a :: l₂ ∧ l₁.length = i ∧ p a = true ∧ ∀ x ∈ l₁, p x = false := by
  induction l generalizing i with
  | nil => simp [findIdxOpt] at h
  | cons x xs ih =>
    by_cases hx : p x
    · simp only [findIdxOpt, hx, if_pos, Option.some.injEq] at h
      exact ⟨[], x, xs, by simp, by simp [h], hx, by simp⟩
    · simp only [findIdxOpt, hx, if_neg, Option.map_eq_some', Bool.false_eq_true,
        not_false_iff] at h
      obtain ⟨j, hj, hji⟩ := h
      obtain ⟨l₁, a, l₂, hl, hlen, hpa, hall⟩ := ih hj
      refine ⟨x :: l₁, a, l₂, by simp [hl], by simp [hlen, hji], hpa, ?_⟩
      intro y hy
      rcases List.mem_cons.mp hy with hx' | hy'
      · simpa [hx'] using hx
      · exact hall y hy'

theorem modifyAt_append_cons (f : α → α) (l₁ : List α) (a : α) (l₂ : List α) :
    modifyAt f l₁.length (l₁ ++ a :: l₂) = l₁ ++ f a :: l₂ := by
  induction l₁ with
  | nil => simp [modifyAt]
  | cons x xs ih => simp [modifyAt, ih]

theorem countP_insertByTs (p : ChatMessage → Bool) (m : ChatMessage)
    (l : List ChatMessage) :
    List.countP p (insertByTs m l) = List.countP p l + if p m then 1 else 0 := by
  induction l with
  | nil => simp [insertByTs, List.countP_cons]
  | cons x xs ih =>
    by_cases h : x.timestamp ≤ m.timestamp
    · simp only [insertByTs, if_pos h, List.countP_cons, ih]
      omega
    · simp only [insertByTs, if_neg h, List.countP_cons]

theorem countP_sortFold (p : ChatMessage → Bool) (l acc : List ChatMessage) :
    List.countP p (l.foldl (fun a m => insertByTs m a) acc)
      = List.countP p acc + List.countP p l := by
  induction l generalizing acc with
  | nil => simp
  | cons m l ih =>
    simp only [List.foldl_cons, ih, countP_insertByTs, List.countP_cons]
    omega

theorem countP_sortByTs (p : ChatMessage → Bool) (l : List ChatMessage) :
    List.countP p (sortByTs l) = List.countP p l := by
  simpa using countP_sortFold p l []

theorem mem_insertByTs {x m : ChatMessage} {l : List ChatMessage} :
    x ∈ insertByTs m l ↔ x = m ∨ x ∈ l := by
  induction l with
  | nil => simp [insertByTs]
  | cons y ys ih =>
    by_cases h : y.timestamp ≤ m.timestamp
    · simp only [insertByTs, if_pos h, List.mem_cons, ih]
      tauto
    · simp only [insertByTs, if_neg h, List.mem_cons]

theorem mem_sortFold {x : ChatMessage} {l acc : List ChatMessage} :
    x ∈ l.foldl (fun a m => insertByTs m a) acc ↔ x ∈ acc ∨ x ∈ l := by
  induction l generalizing acc with
  | nil => simp
  | cons m l ih =>
    simp only [List.foldl_cons, ih, mem_insertByTs, List.mem_cons]
    tauto

theorem mem_sortByTs {x : ChatMessage} {l : List ChatMessage} :
    x ∈ sortByTs l ↔ x ∈ l := by
  simpa [sortByTs] using @mem_sortFold x l []

theorem length_insertByTs (m : ChatMessage) (l : List ChatMessage) :
    (insertByTs m l).length = l.length + 1 := by
  induction l with
  | nil => simp [insertByTs]
  | cons x xs ih =>
    by_cases h : x.timestamp ≤ m.timestamp <;> simp [insertByTs, h, ih]

theorem length_sortFold (l acc : List ChatMessage) :
    (l.foldl (fun a m => insertByTs m a) acc).length = acc.length + l.length := by
  induction l generalizing acc with
  | nil => simp
  | cons m l ih => simp [List.foldl_cons, ih, length_insertByTs]; omega

theorem length_sortByTs (l : List ChatMessage) : (sortByTs l).length = l.length := by
  simpa using length_sortFold l []

theorem length_modifyAt (f : α → α) (i : Nat) (l : List α) :
    (modifyAt f i l).length = l.length := by
  induction l generalizing i with
  | nil => simp [modifyAt]
  | cons x xs ih =>
    cases i with
    | zero => simp [modifyAt]
    | succ n => simp [modifyAt, ih]

/-- Ordered-by-timestamp predicate on a log. -/
abbrev SortedTs (l : List ChatMessage) : Prop :=
  l.Pairwise (fun a b => a.timestamp ≤ b.timestamp)

theorem insertByTs_eq_append (m : ChatMessage) (l : List ChatMessage)
    (h : ∀ x ∈ l, x.timestamp ≤ m.timestamp) :
    insertByTs m l = l ++ [m] := by
  induction l with
  | nil => simp [insertByTs]
  | cons x xs ih =>
    have hx : x.timestamp ≤ m.timestamp := h x (by simp)
    simp [insertByTs, hx, ih (fun y hy => h y (by simp [hy]))]

theorem sortFold_sorted (l acc : List ChatMessage) (h : SortedTs (acc ++ l)) :
    l.foldl (fun a m => insertByTs m a) acc = acc ++ l := by
  induction l generalizing acc with
  | nil => simp
  | cons m l ih =>
    have hcross := (List.pairwise_append.mp h).2.2
    have hacc : ∀ x ∈ acc, x.timestamp ≤ m.timestamp := by
      intro x hx
      exact hcross x hx m (by simp)
    rw [List.foldl_cons, insertByTs_eq_append m acc hacc,
      ih (acc ++ [m]) (by simpa using h)]
    simp

theorem sortByTs_of_sorted (l : List ChatMessage) (h : SortedTs l) :
    sortByTs l = l := by
  simpa [sortByTs] using sortFold_sorted l [] (by simpa using h)

theorem insertByTs_snoc_of_lt (m z : ChatMessage) (l : List ChatMessage)
    (hz : m.timestamp < z.timestamp) :
    insertByTs m (l ++ [z]) = insertByTs m l ++ [z] := by
  induction l with
  | nil => simp [insertByTs, Nat.not_le.mpr hz]
  | cons x xs ih =>
    by_cases h : x.timestamp ≤ m.timestamp <;> simp [insertByTs, h, ih]

theorem sortFold_snoc_max (l₂ acc : List ChatMessage) (z : ChatMessage)
    (h : ∀ x ∈ l₂, x.timestamp < z.timestamp) :
    l₂.foldl (fun a m => insertByTs m a) (acc ++ [z])
      = l₂.foldl (fun a m => insertByTs m a) acc ++ [z] := by
  induction l₂ generalizing acc with
  | nil => simp
  | cons m l ih =>
    rw [List.foldl_cons, insertByTs_snoc_of_lt m z acc (h m (by simp)),
      ih (insertByTs m acc) (fun y hy => h y (by simp [hy])), List.foldl_cons]

/-- Stable sort of a sorted list with one maximal element spliced into the
middle: the spliced element moves to the end, everything else keeps its
relative order. -/
theorem sortByTs_mid_max (l₁ l₂ : List ChatMessage) (z : ChatMessage)
    (hs : SortedTs (l₁ ++ l₂))
    (h₁ : ∀ x ∈ l₁, x.timestamp ≤ z.timestamp)
    (h₂ : ∀ x ∈ l₂, x.timestamp < z.timestamp) :
    sortByTs (l₁ ++ z :: l₂) = (l₁ ++ l₂) ++ [z] := by
  have hs₁ : SortedTs l₁ := (List.pairwise_append.mp hs).1
  unfold sortByTs
  rw [List.foldl_append, sortFold_sorted l₁ [] (by simpa using hs₁)]
  simp only [List.nil_append, List.foldl_cons]
  rw [insertByTs_eq_append z l₁ h₁, sortFold_snoc_max l₂ l₁ z h₂,
    sortFold_sorted l₂ l₁ hs]

theorem countP_le_of_imp (p q : α → Bool) (l : List α)
    (h : ∀ x ∈ l, p x = true → q x = true) :
    List.countP p l ≤ List.countP q l := by
  induction l with
  | nil => simp
  | cons x xs ih =>
    have hx := h x (by simp)
    have ihx := ih (fun y hy => h y (by simp [hy]))
    by_cases hp : p x = true
    · simp only [List.countP_cons, hp, hx hp, if_pos]
      omega
    · simp only [List.countP_cons, hp, if_neg, if_false]
      by_cases hq : q x = true <;> simp [hq] <;> omega

/-! ### The thread-based reconciler variant (ChatConsole.tsx, third document) -/

/-- State of the thread-based ChatConsole: the message log, the open thread
id (or none), the text-input value, the loading flag, and a nonce counter
modeling the freshness source (`Date.now()` + `Math.random()`) used by
`generateThreadId`. -/
structure EngineState where
  messages : List ChatMessage
  currentThreadId : Option String
  inputValue : String
  isLoading : Bool
  nonce : Nat
deriving DecidableEq

/-- `generateThreadId` (line 1059): mints a thread id from the freshness
source, modeled by the nonce counter. -/
def threadName (n : Nat) : String :=
  "thread-" ++ toString n

/-- The message record built by the UserTranscript handler
(lines 1141-1148). -/
def userNM (now : Nat) (text : String) (isFinal : Bool) (tid : String) : NewMessage :=
  { id := if isFinal then "user-final-" ++ toString now else "user-interim-" ++ tid
    threadId := tid
    type := Speaker.user
    content := text
    messageType := MsgType.transcription
    status := if isFinal then MsgStatus.final else MsgStatus.interim }

/-- The message record built by the BotTranscript handler
(lines 1173-1180). -/
def botNM (now : Nat) (text : String) (isFinal : Bool) (tid : String) : NewMessage :=
  { id := if isFinal then "bot-final-" ++ toString now else "bot-interim-" ++ tid
    threadId := tid
    type := Speaker.bot
    content := text
    messageType := MsgType.transcription
    status := if isFinal then MsgStatus.final else MsgStatus.interim }

/-- The UserTranscript handler (lines 1130-1159). When no thread is open the
code runs `setCurrentThreadId(generateThreadId())` and then, because the
closure still sees the old null value, `currentThreadId || generateThreadId()`
mints a second id for the message itself: the stored thread id and the
message's thread id come from two distinct draws (nonce and nonce + 1). -/
def userTranscriptHandler (now : Nat) (text : String) (isFinal : Bool)
    (s : EngineState) : EngineState :=
  match s.currentThreadId with
  | some t =>
    { s with messages := addOrUpdateMessage now (userNM now text isFinal t) s.messages }
  | none =>
    { s with
      messages :=
        addOrUpdateMessage now (userNM now text isFinal (threadName (s.nonce + 1))) s.messages
      currentThreadId := some (threadName s.nonce)
      nonce := s.nonce + 2 }

/-- The BotTranscript handler (lines 1162-1189): same correlation logic as
the user handler; a final bot transcript additionally clears the loading flag
and resets the current thread id for the next conversation. -/
def botTranscriptHandler (now : Nat) (text : String) (isFinal : Bool)
    (s : EngineState) : EngineState :=
  match s.currentThreadId with
  | some t =>
    { s with
      messages := addOrUpdateMessage now (botNM now text isFinal t) s.messages
      currentThreadId := if isFinal then none else some t
      isLoading := if isFinal then false else s.isLoading }
  | none =>
    { s with
      messages :=
        addOrUpdateMessage now (botNM now text isFinal (threadName (s.nonce + 1))) s.messages
      currentThreadId := if isFinal then none else some (threadName s.nonce)
      nonce := s.nonce + 2
      isLoading := if isFinal then false else s.isLoading }

/-- The UserStartedSpeaking handler (lines 1210-1218): open a thread if none
is open. -/
def userStartedSpeakingHandler (s : EngineState) : EngineState :=
  match s.currentThreadId with
  | some _ => s
  | none => { s with currentThreadId := some (threadName s.nonce), nonce := s.nonce + 1 }

/-- The disconnect branch of handleConnectionToggle (lines 1237-1256): the
external `disconnect()` is invoked and `currentThreadId` is cleared. The
message log is not touched. -/
def disconnectToggle (s : EngineState) : EngineState :=
  { s with currentThreadId := none }

/-- The simulated bot reply scheduled by handleSendMessage. -/
structure ScheduledBot where
  threadId : String
  content : String
deriving DecidableEq

/-- Reply text scheduled when connected (lines 1293-1303). -/
def typedBotReplyConnected (messageText : String) : String :=
  "I\x27ll help you search for properties: \x22" ++ messageText ++
    "\x22. For a full AI conversation experience, please use the voice feature by speaking naturally."

/-- Reply text scheduled when not connected (lines 1305-1315). -/
def typedBotReplyOffline (messageText : String) : String :=
  "I received your message: \x22" ++ messageText ++
    "\x22. Please connect to start the AI conversation."

/-- The typed-message record built by handleSendMessage (lines 1272-1279). -/
def typedNM (now : Nat) (input : String) (tid : String) : NewMessage :=
  { id := "typed-" ++ toString now
    threadId := tid
    type := Speaker.user
    content := input
    messageType := MsgType.text
    status := MsgStatus.final }

/-- handleSendMessage of the thread-based variant (lines 1268-1331): guard on
blank input, insert the typed message as a final entry under a freshly minted
thread id, clear the input, and schedule a simulated bot reply (returned as
the second component; `setTimeout` runs it later). -/
def handleSendMessage (now : Nat) (connected : Bool) (s : EngineState) :
    EngineState × Option ScheduledBot :=
  if strTrim s.inputValue = "" then (s, none)
  else
    ({ s with
        messages := addOrUpdateMessage now (typedNM now s.inputValue (threadName s.nonce))
          s.messages
        inputValue := ""
        nonce := s.nonce + 1 },
      some
        { threadId := threadName s.nonce
          content :=
            if connected then typedBotReplyConnected s.inputValue
            else typedBotReplyOffline s.inputValue })

/-- The welcome entry the log is initialized with (lines 1021-1031). -/
def welcomeMessage (t0 : Nat) : ChatMessage :=
  { id := "welcome-1"
    threadId := "welcome"
    type := Speaker.bot
    content := "Hello! I\x27m your real estate assistant. I can help you search for properties. You can speak to me or type your questions!"
    timestamp := t0
    messageType := MsgType.text
    status := MsgStatus.final }

/-- Initial component state at mount time `t0`. -/
def initState (t0 : Nat) : EngineState :=
  { messages := [welcomeMessage t0]
    currentThreadId := none
    inputValue := ""
    isLoading := false
    nonce := 0 }

/-! ### Branch lemmas for addOrUpdateMessage -/

theorem addOrUpdate_of_none (now : Nat) (nm : NewMessage) (prev : List ChatMessage)
    (h : findIdxOpt (tupleMatch nm.threadId nm.type nm.messageType) prev = none) :
    addOrUpdateMessage now nm prev = sortByTs (prev ++ [nm.withTimestamp now]) := by
  simp [addOrUpdateMessage, h]

theorem addOrUpdate_of_some_final (now : Nat) (nm : NewMessage)
    (prev : List ChatMessage) (i : Nat)
    (h : findIdxOpt (tupleMatch nm.threadId nm.type nm.messageType) prev = some i)
    (hf : nm.status = MsgStatus.final) :
    addOrUpdateMessage now nm prev
      = sortByTs (modifyAt (fun _ => nm.withTimestamp now) i prev) := by
  simp [addOrUpdateMessage, h, hf]

theorem addOrUpdate_of_some_interim (now : Nat) (nm : NewMessage)
    (prev : List ChatMessage) (i : Nat)
    (h : findIdxOpt (tupleMatch nm.threadId nm.type nm.messageType) prev = some i)
    (hi : nm.status = MsgStatus.interim) :
    addOrUpdateMessage now nm prev
      = modifyAt (fun m => { m with content := nm.content }) i prev := by
  simp [addOrUpdateMessage, h, hi]

theorem tupleMatch_withTimestamp (nm : NewMessage) (now : Nat) :
    tupleMatch nm.threadId nm.type nm.messageType (nm.withTimestamp now) = true := by
  simp [tupleMatch, NewMessage.withTimestamp]

theorem tupleMatch_set_content (tid : String) (sp : Speaker) (mt : MsgType)
    (m : ChatMessage) (c : String) :
    tupleMatch tid sp mt { m with content := c } = tupleMatch tid sp mt m := rfl

/-- Behavior of `addOrUpdateMessage` on a final message when the log holds at
most one entry for the incoming tuple: afterwards exactly one entry matches
the tuple, and that entry is the incoming message stamped with `now`. -/
theorem addOrUpdate_final_spec (now : Nat) (nm : NewMessage) (prev : List ChatMessage)
    (hf : nm.status = MsgStatus.final)
    (hle : List.countP (tupleMatch nm.threadId nm.type nm.messageType) prev ≤ 1) :
    List.countP (tupleMatch nm.threadId nm.type nm.messageType)
        (addOrUpdateMessage now nm prev) = 1 ∧
    ∀ m ∈ addOrUpdateMessage now nm prev,
      tupleMatch nm.threadId nm.type nm.messageType m = true →
        m = nm.withTimestamp now := by
  cases hfi : findIdxOpt (tupleMatch nm.threadId nm.type nm.messageType) prev with
  | none =>
    rw [addOrUpdate_of_none now nm prev hfi]
    have hall := findIdxOpt_eq_none.mp hfi
    have hcnt0 : List.countP (tupleMatch nm.threadId nm.type nm.messageType) prev = 0 :=
      List.countP_eq_zero.mpr (by intro a ha; simp [hall a ha])
    constructor
    · rw [countP_sortByTs, List.countP_append, hcnt0, List.countP_cons]
      simp [tupleMatch_withTimestamp]
    · intro m hm hmatch
      rcases List.mem_append.mp (mem_sortByTs.mp hm) with h | h
      · exact absurd hmatch (by simp [hall m h])
      · simpa using h
  | some i =>
    obtain ⟨l₁, a, l₂, hsplit, hlen, hpa, hall₁⟩ := findIdxOpt_split hfi
    subst hsplit
    rw [addOrUpdate_of_some_final now nm _ i hfi hf, ← hlen, modifyAt_append_cons]
    have hc₁ : List.countP (tupleMatch nm.threadId nm.type nm.messageType) l₁ = 0 :=
      List.countP_eq_zero.mpr (by intro x hx; simp [hall₁ x hx])
    have hc₂ : List.countP (tupleMatch nm.threadId nm.type nm.messageType) l₂ = 0 := by
      have h' := hle
      simp only [List.countP_append, List.countP_cons, hpa, hc₁, if_true] at h'
      omega
    have hall₂ : ∀ x ∈ l₂, tupleMatch nm.threadId nm.type nm.messageType x = false := by
      intro x hx
      have := List.countP_eq_zero.mp hc₂ x hx
      simpa using this
    constructor
    · rw [countP_sortByTs, List.countP_append, List.countP_cons, hc₁, hc₂]
      simp [tupleMatch_withTimestamp]
    · intro m hm hmatch
      rcases List.mem_append.mp (mem_sortByTs.mp hm) with h | h
      · exact absurd hmatch (by simp [hall₁ m h])
      · rcases List.mem_cons.mp h with h | h
        · exact h
        · exact absurd hmatch (by simp [hall₂ m h])

/-- Behavior of `addOrUpdateMessage` on an interim message: the number of
entries for the tuple stays at most one (a fresh interim is inserted only
when none exists), and every entry for the tuple stays interim if all were
interim before and the incoming message is interim. -/
theorem addOrUpdate_interim_inv (now : Nat) (nm : NewMessage) (prev : List ChatMessage)
    (hi : nm.status = MsgStatus.interim)
    (hle : List.countP (tupleMatch nm.threadId nm.type nm.messageType) prev ≤ 1)
    (hst : ∀ m ∈ prev, tupleMatch nm.threadId nm.type nm.messageType m = true →
      m.status = MsgStatus.interim) :
    List.countP (tupleMatch nm.threadId nm.type nm.messageType)
        (addOrUpdateMessage now nm prev) ≤ 1 ∧
    ∀ m ∈ addOrUpdateMessage now nm prev,
      tupleMatch nm.threadId nm.type nm.messageType m = true →
        m.status = MsgStatus.interim := by
  cases hfi : findIdxOpt (tupleMatch nm.threadId nm.type nm.messageType) prev with
  | none =>
    rw [addOrUpdate_of_none now nm prev hfi]
    have hall := findIdxOpt_eq_none.mp hfi
    have hcnt0 : List.countP (tupleMatch nm.threadId nm.type nm.messageType) prev = 0 :=
      List.countP_eq_zero.mpr (by intro a ha; simp [hall a ha])
    constructor
    · rw [countP_sortByTs, List.countP_append, hcnt0, List.countP_cons]
      simp [tupleMatch_withTimestamp]
    · intro m hm hmatch
      rcases List.mem_append.mp (mem_sortByTs.mp hm) with h | h
      · exact absurd hmatch (by simp [hall m h])
      · have hm' : m = nm.withTimestamp now := by simpa using h
        subst hm'
        simpa [NewMessage.withTimestamp] using hi
  | some i =>
    obtain ⟨l₁, a, l₂, hsplit, hlen, hpa, hall₁⟩ := findIdxOpt_split hfi
    subst hsplit
    rw [addOrUpdate_of_some_interim now nm _ i hfi hi, ← hlen, modifyAt_append_cons]
    have ha_mem : a ∈ l₁ ++ a :: l₂ := by simp
    constructor
    · rw [List.countP_append, List.countP_cons] at hle ⊢
      rw [tupleMatch_set_content]
      exact hle
    · intro m hm hmatch
      rcases List.mem_append.mp hm with h | h
      · exact hst m (by simp [h]) hmatch
      · rcases List.mem_cons.mp h with h | h
        · subst h
          have : a.status = MsgStatus.interim := hst a ha_mem hpa
          simpa using this
        · exact hst m (by simp [h]) hmatch

/-- Invariant maintained by interim ingestion for a tuple
(threadId, user, spoken): at most one log entry for the tuple, and any such
entry is interim. -/
def InterimInv (tid : String) (msgs : List ChatMessage) : Prop :=
  List.countP (tupleMatch tid Speaker.user MsgType.transcription) msgs ≤ 1 ∧
  ∀ m ∈ msgs, tupleMatch tid Speaker.user MsgType.transcription m = true →
    m.status = MsgStatus.interim

/-- One interim user transcript keeps the thread open, does not touch the
nonce, and preserves the interim invariant. -/
theorem interim_step (tid : String) (s : EngineState) (now : Nat) (txt : String)
    (hthread : s.currentThreadId = some tid)
    (hinv : InterimInv tid s.messages) :
    (userTranscriptHandler now txt false s).currentThreadId = some tid ∧
    (userTranscriptHandler now txt false s).nonce = s.nonce ∧
    InterimInv tid (userTranscriptHandler now txt false s).messages := by
  have hstep := addOrUpdate_interim_inv now (userNM now txt false tid) s.messages
    (by simp [userNM]) hinv.1 hinv.2
  have h3 : (userTranscriptHandler now txt false s).messages
      = addOrUpdateMessage now (userNM now txt false tid) s.messages := by
    simp [userTranscriptHandler, hthread]
  refine ⟨by simp [userTranscriptHandler, hthread], by simp [userTranscriptHandler, hthread],
    ?_, ?_⟩
  · rw [h3]
    exact hstep.1
  · rw [h3]
    exact hstep.2

/-- Folding a list of (arrival time, text) interim user transcripts into the
engine. -/
def ingestInterims (evs : List (Nat × String)) (s : EngineState) : EngineState :=
  evs.foldl (fun st e => userTranscriptHandler e.1 e.2 false st) s

theorem ingestInterims_inv (tid : String) (evs : List (Nat × String))
    (s : EngineState) (hthread : s.currentThreadId = some tid)
    (hinv : InterimInv tid s.messages) :
    (ingestInterims evs s).currentThreadId = some tid ∧
    InterimInv tid (ingestInterims evs s).messages := by
  induction evs generalizing s with
  | nil => exact ⟨hthread, hinv⟩
  | cons e evs ih =>
    have hstep := interim_step tid s e.1 e.2 hthread hinv
    simpa [ingestInterims] using ih (userTranscriptHandler e.1 e.2 false s) hstep.1 hstep.2.2

/-! ### Claim C1 -/

/-- Claim C1: starting from a state whose open thread is `tid` and whose log
holds no entry for the tuple (tid, user, spoken), ingesting any sequence of
interim user transcripts followed by one final user transcript leaves the log
with exactly one entry for the tuple, whose status is final and whose content
is the final transcript's text; after every prefix of the interim events the
log holds at most one interim entry for the tuple. -/
theorem c1_no_duplication (tid : String) (s0 : EngineState) (evs : List (Nat × String))
    (now : Nat) (tf : String)
    (hthread : s0.currentThreadId = some tid)
    (hclean : ∀ m ∈ s0.messages,
      tupleMatch tid Speaker.user MsgType.transcription m = false) :
    (∀ evs1 evs2, evs = evs1 ++ evs2 →
      List.countP
        (fun m => tupleMatch tid Speaker.user MsgType.transcription m
          && decide (m.status = MsgStatus.interim))
        (ingestInterims evs1 s0).messages ≤ 1) ∧
    List.countP (tupleMatch tid Speaker.user MsgType.transcription)
      (userTranscriptHandler now tf true (ingestInterims evs s0)).messages = 1 ∧
    ∀ m ∈ (userTranscriptHandler now tf true (ingestInterims evs s0)).messages,
      tupleMatch tid Speaker.user MsgType.transcription m = true →
        m.status = MsgStatus.final ∧ m.content = tf := by
  have hinv0 : InterimInv tid s0.messages := by
    constructor
    · have : List.countP (tupleMatch tid Speaker.user MsgType.transcription) s0.messages = 0 :=
        List.countP_eq_zero.mpr (by intro a ha; simp [hclean a ha])
      omega
    · intro m hm hmatch
      exact absurd hmatch (by simp [hclean m hm])
  refine ⟨?_, ?_⟩
  · intro evs1 evs2 heq
    have hpre := ingestInterims_inv tid evs1 s0 hthread hinv0
    have hmono : List.countP
        (fun m => tupleMatch tid Speaker.user MsgType.transcription m
          && decide (m.status = MsgStatus.interim))
        (ingestInterims evs1 s0).messages
        ≤ List.countP (tupleMatch tid Speaker.user MsgType.transcription)
            (ingestInterims evs1 s0).messages := by
      apply countP_le_of_imp
      intro x _ hx
      simp only [Bool.and_eq_true] at hx
      exact hx.1
    exact le_trans hmono hpre.2.1
  · have hrun := ingestInterims_inv tid evs s0 hthread hinv0
    have hstep := addOrUpdate_final_spec now (userNM now tf true tid)
      (ingestInterims evs s0).messages (by simp [userNM]) hrun.2.1
    have h3 : (userTranscriptHandler now tf true (ingestInterims evs s0)).messages
        = addOrUpdateMessage now (userNM now tf true tid) (ingestInterims evs s0).messages := by
      simp [userTranscriptHandler, hrun.1]
    rw [h3]
    refine ⟨hstep.1, ?_⟩
    intro m hm hmatch
    have hme := hstep.2 m hm hmatch
    subst hme
    exact ⟨by simp [userNM, NewMessage.withTimestamp], by simp [userNM, NewMessage.withTimestamp]⟩

/-- Witness for C1: the concrete scenario of spec §8 — thread opened on
speech start, one interim "find" at t = 10, a final "find me a house" at
t = 20 — satisfies the hypotheses and therefore the conclusion. -/
theorem c1_no_duplication_witness :
    ((userStartedSpeakingHandler (initState 0)).currentThreadId = some "thread-0") ∧
    (∀ m ∈ (userStartedSpeakingHandler (initState 0)).messages,
      tupleMatch "thread-0" Speaker.user MsgType.transcription m = false) ∧
    ((∀ evs1 evs2, ([((10 : Nat), "find")] : List (Nat × String)) = evs1 ++ evs2 →
      List.countP
        (fun m => tupleMatch "thread-0" Speaker.user MsgType.transcription m
          && decide (m.status = MsgStatus.interim))
        (ingestInterims evs1 (userStartedSpeakingHandler (initState 0))).messages ≤ 1) ∧
    List.countP (tupleMatch "thread-0" Speaker.user MsgType.transcription)
      (userTranscriptHandler 20 "find me a house" true
        (ingestInterims [(10, "find")] (userStartedSpeakingHandler (initState 0)))).messages = 1 ∧
    ∀ m ∈ (userTranscriptHandler 20 "find me a house" true
        (ingestInterims [(10, "find")] (userStartedSpeakingHandler (initState 0)))).messages,
      tupleMatch "thread-0" Speaker.user MsgType.transcription m = true →
        m.status = MsgStatus.final ∧ m.content = "find me a house") :=
  ⟨by decide, by decide,
    c1_no_duplication "thread-0" (userStartedSpeakingHandler (initState 0))
      [(10, "find")] 20 "find me a house" (by decide) (by decide)⟩

/-! ### Claim C7: connection predicates (ConnectButton.tsx lines 20-28) -/

/-- The closed set of transport lifecycle states the engine distinguishes
(interface boundary of the external transport, spec §4.1; the code compares
the externally provided state against these string literals). -/
inductive TransportState where
  | disconnected
  | initializing
  | initialized
  | authenticating
  | authenticated
  | connecting
  | connected
  | ready
  | error
deriving DecidableEq

/-- `isConnected` of ConnectButton.tsx line 21 (same test as
`isConnectedState` in ChatConsole.tsx lines 1047-1049). -/
def isConnectedCB (s : TransportState) : Bool :=
  decide (s = TransportState.connected) || decide (s = TransportState.ready)

/-- `isConnecting_State` of ConnectButton.tsx lines 22-26 (same test as
`isConnecting` in ChatConsole.tsx lines 1052-1056). -/
def isConnectingCB (s : TransportState) : Bool :=
  decide (s = TransportState.connecting) || decide (s = TransportState.initializing) ||
    decide (s = TransportState.initialized) || decide (s = TransportState.authenticating) ||
    decide (s = TransportState.authenticated)

/-- `isDisconnected` of ConnectButton.tsx line 27. -/
def isDisconnectedCB (s : TransportState) : Bool :=
  decide (s = TransportState.disconnected)

/-- `hasError` of ConnectButton.tsx line 28. -/
def hasErrorCB (s : TransportState) : Bool :=
  decide (s = TransportState.error)

/-- Claim C7: each derived predicate holds exactly on its stated set of
states, and at most one of the four predicates is true in every state. -/
theorem c7_connection_predicates (s : TransportState) :
    (isConnectedCB s = true ↔ s = TransportState.connected ∨ s = TransportState.ready) ∧
    (isConnectingCB s = true ↔ s = TransportState.connecting ∨ s = TransportState.initializing ∨
      s = TransportState.initialized ∨ s = TransportState.authenticating ∨
      s = TransportState.authenticated) ∧
    (isDisconnectedCB s = true ↔ s = TransportState.disconnected) ∧
    (hasErrorCB s = true ↔ s = TransportState.error) ∧
    ((if isConnectedCB s then 1 else 0) + (if isConnectingCB s then 1 else 0) +
      (if isDisconnectedCB s then 1 else 0) + (if hasErrorCB s then 1 else 0) ≤ 1) := by
  cases s <;> decide

/-! ### Claim C2: interim-to-final promotion -/

/-- Counterexample to C2 as stated: with the welcome log and an open thread,
an interim "find" at t = 10 is stored under id "user-interim-thread-0"; the
final at t = 20 replaces it with a fresh entry whose id is "user-final-20" —
the entry id is not preserved by promotion. -/
theorem c2_counterexample :
    ((ingestInterims [(10, "find")] (userStartedSpeakingHandler (initState 0))).messages.map
        (fun m => m.id) = ["welcome-1", "user-interim-thread-0"]) ∧
    ((userTranscriptHandler 20 "find me a house" true
        (ingestInterims [(10, "find")] (userStartedSpeakingHandler (initState 0)))).messages.map
        (fun m => m.id) = ["welcome-1", "user-final-20"]) ∧
    "user-interim-thread-0" ≠ "user-final-20" := by
  refine ⟨by decide, by decide, by decide⟩

/-- Claim C2 as amended: when the log holds exactly one entry for the tuple
(tid, user, spoken), a final transcript replaces it rather than appending —
the log length is unchanged and exactly one entry for the tuple remains,
final with the final's content — but the replacement carries the fresh id
`user-final-<now>` and the fresh timestamp `now` instead of keeping the
interim's id, and the log is re-sorted by timestamp. -/
theorem c2_promotion_replaces (tid : String) (s : EngineState) (now : Nat) (tf : String)
    (hthread : s.currentThreadId = some tid)
    (hone : List.countP (tupleMatch tid Speaker.user MsgType.transcription) s.messages = 1) :
    (userTranscriptHandler now tf true s).messages.length = s.messages.length ∧
    List.countP (tupleMatch tid Speaker.user MsgType.transcription)
      (userTranscriptHandler now tf true s).messages = 1 ∧
    ∀ m ∈ (userTranscriptHandler now tf true s).messages,
      tupleMatch tid Speaker.user MsgType.transcription m = true →
        m.status = MsgStatus.final ∧ m.content = tf ∧
          m.id = "user-final-" ++ toString now ∧ m.timestamp = now := by
  have h3 : (userTranscriptHandler now tf true s).messages
      = addOrUpdateMessage now (userNM now tf true tid) s.messages := by
    simp [userTranscriptHandler, hthread]
  have hpos : 0 < List.countP (tupleMatch tid Speaker.user MsgType.transcription) s.messages := by
    omega
  obtain ⟨a, ha, hpa⟩ := List.countP_pos_iff.mp hpos
  have hsome : findIdxOpt (tupleMatch tid Speaker.user MsgType.transcription) s.messages ≠ none := by
    intro hn
    have := findIdxOpt_eq_none.mp hn a ha
    simp [this] at hpa
  obtain ⟨i, hi⟩ := Option.ne_none_iff_exists'.mp hsome
  have hspec := addOrUpdate_final_spec now (userNM now tf true tid) s.messages
    (by simp [userNM]) (le_of_eq hone)
  refine ⟨?_, ?_, ?_⟩
  · rw [h3, addOrUpdate_of_some_final now (userNM now tf true tid) s.messages i hi
      (by simp [userNM]), length_sortByTs, length_modifyAt]
  · rw [h3]
    exact hspec.1
  · rw [h3]
    intro m hm hmatch
    have hme := hspec.2 m hm hmatch
    subst hme
    refine ⟨by simp [userNM, NewMessage.withTimestamp], by simp [userNM, NewMessage.withTimestamp],
      by simp [userNM, NewMessage.withTimestamp], by simp [NewMessage.withTimestamp]⟩

/-- Witness for the amended C2 at the counterexample's own input. -/
theorem c2_promotion_replaces_witness :
    ((ingestInterims [(10, "find")] (userStartedSpeakingHandler (initState 0))).currentThreadId
        = some "thread-0") ∧
    (List.countP (tupleMatch "thread-0" Speaker.user MsgType.transcription)
        (ingestInterims [(10, "find")] (userStartedSpeakingHandler (initState 0))).messages = 1) ∧
    ((userTranscriptHandler 20 "find me a house" true
        (ingestInterims [(10, "find")] (userStartedSpeakingHandler (initState 0)))).messages.length
      = (ingestInterims [(10, "find")] (userStartedSpeakingHandler (initState 0))).messages.length ∧
    List.countP (tupleMatch "thread-0" Speaker.user MsgType.transcription)
      (userTranscriptHandler 20 "find me a house" true
        (ingestInterims [(10, "find")] (userStartedSpeakingHandler (initState 0)))).messages = 1 ∧
    ∀ m ∈ (userTranscriptHandler 20 "find me a house" true
        (ingestInterims [(10, "find")] (userStartedSpeakingHandler (initState 0)))).messages,
      tupleMatch "thread-0" Speaker.user MsgType.transcription m = true →
        m.status = MsgStatus.final ∧ m.content = "find me a house" ∧
          m.id = "user-final-" ++ toString 20 ∧ m.timestamp = 20) :=
  ⟨by decide, by decide,
    c2_promotion_replaces "thread-0"
      (ingestInterims [(10, "find")] (userStartedSpeakingHandler (initState 0)))
      20 "find me a house" (by decide) (by decide)⟩

/-! ### Claim C3: order stability -/

/-- Counterexample to C3 as stated: welcome entry at t = 0, user interim at
t = 10, bot interim at t = 20 — the user entry is displayed before the bot
entry. Promoting the user interim to final at t = 30 re-stamps it with
timestamp 30 and re-sorts the log by timestamp, so the user entry moves after
the bot entry: promotion changed the relative display order of two entries. -/
theorem c3_counterexample :
    ((botTranscriptHandler 20 "Searching" false
        (userTranscriptHandler 10 "find" false
          (userStartedSpeakingHandler (initState 0)))).messages.map (fun m => m.id)
      = ["welcome-1", "user-interim-thread-0", "bot-interim-thread-0"]) ∧
    ((userTranscriptHandler 30 "find me a house" true
        (botTranscriptHandler 20 "Searching" false
          (userTranscriptHandler 10 "find" false
            (userStartedSpeakingHandler (initState 0))))).messages.map (fun m => m.id)
      = ["welcome-1", "bot-interim-thread-0", "user-final-30"]) := by
  refine ⟨by decide, by decide⟩

/-- Claim C3 as amended: the log is ordered by timestamp through a stable
sort, not by an insertion-order sequence. Promoting the interim entry of the
open thread to final stamps it with the arrival clock and re-sorts: when the
arrival clock is at or past every earlier timestamp (strictly past the
timestamps of entries after the interim), the promoted entry moves to the end
of the log while all other entries keep their relative order. -/
theorem c3_order_is_timestamp_sort (tid : String) (s : EngineState) (now : Nat)
    (tf : String) (l₁ l₂ : List ChatMessage) (a : ChatMessage)
    (hthread : s.currentThreadId = some tid)
    (hdecomp : s.messages = l₁ ++ a :: l₂)
    (hmatch : tupleMatch tid Speaker.user MsgType.transcription a = true)
    (hnomatch : ∀ m ∈ l₁, tupleMatch tid Speaker.user MsgType.transcription m = false)
    (hsorted : SortedTs (l₁ ++ l₂))
    (hle : ∀ m ∈ l₁, m.timestamp ≤ now)
    (hlt : ∀ m ∈ l₂, m.timestamp < now) :
    (userTranscriptHandler now tf true s).messages
      = (l₁ ++ l₂) ++ [(userNM now tf true tid).withTimestamp now] := by
  have h3 : (userTranscriptHandler now tf true s).messages
      = addOrUpdateMessage now (userNM now tf true tid) s.messages := by
    simp [userTranscriptHandler, hthread]
  have hfind : findIdxOpt
      (tupleMatch (userNM now tf true tid).threadId (userNM now tf true tid).type
        (userNM now tf true tid).messageType) (l₁ ++ a :: l₂) = some l₁.length :=
    findIdxOpt_append_cons l₁ a l₂ hmatch hnomatch
  rw [h3, hdecomp, addOrUpdate_of_some_final now (userNM now tf true tid) (l₁ ++ a :: l₂)
    l₁.length hfind (by simp [userNM]), modifyAt_append_cons]
  refine sortByTs_mid_max l₁ l₂ ((userNM now tf true tid).withTimestamp now) hsorted ?_ ?_
  · intro x hx
    simpa [NewMessage.withTimestamp] using hle x hx
  · intro x hx
    simpa [NewMessage.withTimestamp] using hlt x hx

/-- Witness for the amended C3 at the counterexample's input:
l₁ = [welcome at 0], the matched interim at 10, l₂ = [bot interim at 20],
promotion at t = 30. -/
theorem c3_order_is_timestamp_sort_witness :
    ((botTranscriptHandler 20 "Searching" false
        (userTranscriptHandler 10 "find" false
          (userStartedSpeakingHandler (initState 0)))).currentThreadId = some "thread-0") ∧
    ((botTranscriptHandler 20 "Searching" false
        (userTranscriptHandler 10 "find" false
          (userStartedSpeakingHandler (initState 0)))).messages
      = [welcomeMessage 0] ++
          (⟨"user-interim-thread-0", "thread-0", Speaker.user, "find", 10,
            MsgType.transcription, MsgStatus.interim⟩ : ChatMessage) ::
          [⟨"bot-interim-thread-0", "thread-0", Speaker.bot, "Searching", 20,
            MsgType.transcription, MsgStatus.interim⟩]) ∧
    (tupleMatch "thread-0" Speaker.user MsgType.transcription
      ⟨"user-interim-thread-0", "thread-0", Speaker.user, "find", 10,
        MsgType.transcription, MsgStatus.interim⟩ = true) ∧
    (∀ m ∈ [welcomeMessage 0],
      tupleMatch "thread-0" Speaker.user MsgType.transcription m = false) ∧
    SortedTs ([welcomeMessage 0] ++
      [⟨"bot-interim-thread-0", "thread-0", Speaker.bot, "Searching", 20,
        MsgType.transcription, MsgStatus.interim⟩]) ∧
    (∀ m ∈ [welcomeMessage 0], m.timestamp ≤ 30) ∧
    (∀ m ∈ [(⟨"bot-interim-thread-0", "thread-0", Speaker.bot, "Searching", 20,
        MsgType.transcription, MsgStatus.interim⟩ : ChatMessage)], m.timestamp < 30) ∧
    ((userTranscriptHandler 30 "find me a house" true
        (botTranscriptHandler 20 "Searching" false
          (userTranscriptHandler 10 "find" false
            (userStartedSpeakingHandler (initState 0))))).messages
      = ([welcomeMessage 0] ++
          [⟨"bot-interim-thread-0", "thread-0", Speaker.bot, "Searching", 20,
            MsgType.transcription, MsgStatus.interim⟩]) ++
          [(userNM 30 "find me a house" true "thread-0").withTimestamp 30]) :=
  ⟨by decide, by decide, by decide, by decide, by decide, by decide, by decide,
    c3_order_is_timestamp_sort "thread-0"
      (botTranscriptHandler 20 "Searching" false
        (userTranscriptHandler 10 "find" false
          (userStartedSpeakingHandler (initState 0))))
      30 "find me a house" [welcomeMessage 0]
      [⟨"bot-interim-thread-0", "thread-0", Speaker.bot, "Searching", 20,
        MsgType.transcription, MsgStatus.interim⟩]
      ⟨"user-interim-thread-0", "thread-0", Speaker.user, "find", 10,
        MsgType.transcription, MsgStatus.interim⟩
      (by decide) (by decide) (by decide) (by decide) (by decide) (by decide) (by decide)⟩

/-! ### Claim C4: disconnect and in-flight speech -/

/-- Counterexample to C4 as stated: thread opened at t = 0, interim "hello"
at t = 10, disconnect processed, then a late final "hello there" at t = 20.
The late final is not dropped: it is appended as a new entry with status
final (under a freshly minted thread id), so the log grows to three entries
and a final entry for the utterance is created; the old interim also stays
in the log. -/
theorem c4_counterexample :
    ((userTranscriptHandler 20 "hello there" true
        (disconnectToggle
          (userTranscriptHandler 10 "hello" false
            (userStartedSpeakingHandler (initState 0))))).messages.map (fun m => m.id)
      = ["welcome-1", "user-interim-thread-0", "user-final-20"]) ∧
    (List.countP (fun m => decide (m.status = MsgStatus.final)
        && decide (m.content = "hello there"))
      (userTranscriptHandler 20 "hello there" true
        (disconnectToggle
          (userTranscriptHandler 10 "hello" false
            (userStartedSpeakingHandler (initState 0))))).messages = 1) ∧
    (List.countP (fun m => decide (m.id = "user-interim-thread-0")
        && decide (m.status = MsgStatus.interim))
      (userTranscriptHandler 20 "hello there" true
        (disconnectToggle
          (userTranscriptHandler 10 "hello" false
            (userStartedSpeakingHandler (initState 0))))).messages = 1) := by
  refine ⟨by decide, by decide, by decide⟩

/-- Claim C4 as amended: processing disconnect clears the current thread id
and leaves the log untouched. A later final transcript is therefore never
applied to the old thread's entries — the interim entry stays in the log,
interim and unchanged — but the event is not dropped either: it is appended
as a new final entry under a freshly minted thread id distinct from the old
thread's id. -/
theorem c4_disconnect_clears_thread (s : EngineState) (tid : String) (now : Nat)
    (txt : String)
    (_hthread : s.currentThreadId = some tid)
    (hfresh : ∀ m ∈ s.messages,
      tupleMatch (threadName (s.nonce + 1)) Speaker.user MsgType.transcription m = false)
    (hsorted : SortedTs s.messages)
    (hle : ∀ m ∈ s.messages, m.timestamp ≤ now)
    (hne : threadName (s.nonce + 1) ≠ tid) :
    (disconnectToggle s).currentThreadId = none ∧
    (disconnectToggle s).messages = s.messages ∧
    (userTranscriptHandler now txt true (disconnectToggle s)).messages
      = s.messages ++ [(userNM now txt true (threadName (s.nonce + 1))).withTimestamp now] ∧
    (userNM now txt true (threadName (s.nonce + 1))).threadId ≠ tid := by
  have hnonefi : findIdxOpt
      (tupleMatch (userNM now txt true (threadName (s.nonce + 1))).threadId
        (userNM now txt true (threadName (s.nonce + 1))).type
        (userNM now txt true (threadName (s.nonce + 1))).messageType) s.messages = none :=
    findIdxOpt_eq_none.mpr hfresh
  have h3 : (userTranscriptHandler now txt true (disconnectToggle s)).messages
      = addOrUpdateMessage now (userNM now txt true (threadName (s.nonce + 1))) s.messages := by
    simp [userTranscriptHandler, disconnectToggle]
  have hsorted2 : SortedTs (s.messages
      ++ [(userNM now txt true (threadName (s.nonce + 1))).withTimestamp now]) := by
    refine List.pairwise_append.mpr ⟨hsorted, by simp, ?_⟩
    intro x hx y hy
    rcases List.mem_singleton.mp hy with rfl
    simpa [NewMessage.withTimestamp] using hle x hx
  refine ⟨rfl, rfl, ?_, by simpa [userNM] using hne⟩
  rw [h3, addOrUpdate_of_none now (userNM now txt true (threadName (s.nonce + 1)))
    s.messages hnonefi, sortByTs_of_sorted _ hsorted2]

/-- Witness for the amended C4 at the counterexample's input. -/
theorem c4_disconnect_clears_thread_witness :
    ((userTranscriptHandler 10 "hello" false
        (userStartedSpeakingHandler (initState 0))).currentThreadId = some "thread-0") ∧
    (∀ m ∈ (userTranscriptHandler 10 "hello" false
        (userStartedSpeakingHandler (initState 0))).messages,
      tupleMatch (threadName ((userTranscriptHandler 10 "hello" false
        (userStartedSpeakingHandler (initState 0))).nonce + 1))
        Speaker.user MsgType.transcription m = false) ∧
    SortedTs (userTranscriptHandler 10 "hello" false
        (userStartedSpeakingHandler (initState 0))).messages ∧
    (∀ m ∈ (userTranscriptHandler 10 "hello" false
        (userStartedSpeakingHandler (initState 0))).messages, m.timestamp ≤ 20) ∧
    (threadName ((userTranscriptHandler 10 "hello" false
        (userStartedSpeakingHandler (initState 0))).nonce + 1) ≠ "thread-0") ∧
    ((disconnectToggle (userTranscriptHandler 10 "hello" false
        (userStartedSpeakingHandler (initState 0)))).currentThreadId = none ∧
    (disconnectToggle (userTranscriptHandler 10 "hello" false
        (userStartedSpeakingHandler (initState 0)))).messages
      = (userTranscriptHandler 10 "hello" false
          (userStartedSpeakingHandler (initState 0))).messages ∧
    (userTranscriptHandler 20 "hello there" true
        (disconnectToggle (userTranscriptHandler 10 "hello" false
          (userStartedSpeakingHandler (initState 0))))).messages
      = (userTranscriptHandler 10 "hello" false
          (userStartedSpeakingHandler (initState 0))).messages
        ++ [(userNM 20 "hello there" true
              (threadName ((userTranscriptHandler 10 "hello" false
                (userStartedSpeakingHandler (initState 0))).nonce + 1))).withTimestamp 20] ∧
    (userNM 20 "hello there" true
        (threadName ((userTranscriptHandler 10 "hello" false
          (userStartedSpeakingHandler (initState 0))).nonce + 1))).threadId ≠ "thread-0") :=
  ⟨by decide, by decide, by decide, by decide, by decide,
    c4_disconnect_clears_thread
      (userTranscriptHandler 10 "hello" false (userStartedSpeakingHandler (initState 0)))
      "thread-0" 20 "hello there" (by decide) (by decide) (by decide) (by decide) (by decide)⟩

/-! ### The speech-only variant (ChatConsole.tsx, first document) -/

/-- Message of the speech-only variant (lines 9-16): `type` is 'user' | 'ai'
(here `isUser`), `messageType` is 'text' | 'transcription' (here
`isTranscription`), and `final` is optional. -/
structure SMessage where
  id : String
  isUser : Bool
  content : String
  timestamp : Nat
  isTranscription : Bool
  final : Option Bool
deriving DecidableEq

/-- The pending auto-send timer armed by `setTimeout(..., 1500)`
(lines 91-95): when it fires it runs `handleSpeechMessage` on the saved
trimmed transcript. -/
structure PendingTimer where
  fireAt : Nat
  text : String
deriving DecidableEq

/-- State of the speech-only ChatConsole relevant to transcript handling. -/
structure SpeechState where
  messages : List SMessage
  currentTranscript : String
  speechTimeout : Option PendingTimer
deriving DecidableEq

/-- `recognitionInstance.onresult` (lines 67-97): a recognition result whose
final part is empty (interim-only) changes nothing — interim results are
neither displayed nor timed; a nonempty final part stores the trimmed
transcript and (re)arms the 1500 ms auto-send timer. -/
def onRecognitionResult (now : Nat) (finalText : String) (s : SpeechState) : SpeechState :=
  if finalText = "" then s
  else
    { s with
      currentTranscript := strTrim finalText
      speechTimeout := some { fireAt := now + 1500, text := strTrim finalText } }

/-- `handleSpeechMessage` (lines 129-172): auto-send of the accumulated final
transcript. Appends the transcript as a final user message and clears the
transcript and timer (the simulated AI reply scheduled afterwards is outside
this function's synchronous effect). -/
def handleSpeechMessage (now : Nat) (transcript : String) (s : SpeechState) : SpeechState :=
  if strTrim transcript = "" then s
  else
    { messages := s.messages ++
        [{ id := toString now
           isUser := true
           content := transcript
           timestamp := now
           isTranscription := true
           final := some true }]
      currentTranscript := ""
      speechTimeout := none }

/-- Firing of the armed timer: the `setTimeout` callback of lines 91-93 runs
`handleSpeechMessage` on the saved transcript at the scheduled time. -/
def fireSpeechTimeout (s : SpeechState) : SpeechState :=
  match s.speechTimeout with
  | none => s
  | some t => handleSpeechMessage t.fireAt t.text s

/-- Initial speech-variant state: welcome message, no transcript, no timer. -/
def initSpeech : SpeechState :=
  { messages := [{ id := "1"
                   isUser := false
                   content := "welcome"
                   timestamp := 0
                   isTranscription := false
                   final := none }]
    currentTranscript := ""
    speechTimeout := none }

/-! ### Claim C5: silence auto-close -/

/-- Counterexample to C5 as stated: no variant closes a thread or discards an
interim entry when the silence window elapses. In the thread-based engine the
state after opening a thread at t = 0 and an interim at t = 100 keeps the
thread open and the interim entry in the log, and no time-based transition
exists to change that at t = 1600. In the speech-only variant an interim-only
recognition result arms no timer at all, while the 1500 ms timer armed by a
final transcript auto-submits the text as a final user message — the exact
opposite of discarding it. -/
theorem c5_counterexample :
    ((userTranscriptHandler 100 "hello" false
        (userStartedSpeakingHandler (initState 0))).currentThreadId = some "thread-0") ∧
    (List.countP (fun m => decide (m.status = MsgStatus.interim))
      (userTranscriptHandler 100 "hello" false
        (userStartedSpeakingHandler (initState 0))).messages = 1) ∧
    (onRecognitionResult 100 "" initSpeech = initSpeech) ∧
    ((onRecognitionResult 100 "find me" initSpeech).speechTimeout
      = some { fireAt := 1600, text := "find me" }) ∧
    ((fireSpeechTimeout (onRecognitionResult 100 "find me" initSpeech)).messages
      = initSpeech.messages ++
          [{ id := toString 1600
             isUser := true
             content := "find me"
             timestamp := 1600
             isTranscription := true
             final := some true }]) := by
  refine ⟨by decide, by decide, by decide, by decide, by decide⟩

/-- Claim C5 as amended: there is no silence-based auto-close. In the
thread-based engine an interim transcript leaves the thread open (only a
final bot transcript or a disconnect closes it), and nothing ever discards an
interim entry. In the speech-only variant an interim-only recognition result
neither logs anything nor arms a timer, and the timer armed by a final
transcript auto-submits (appends, as a final user message) the saved
transcript when it fires instead of discarding it. -/
theorem c5_no_silence_close (s : EngineState) (tid : String) (now : Nat) (txt : String)
    (hthread : s.currentThreadId = some tid)
    (sp sp2 : SpeechState) (t fa : Nat) (tx : String)
    (hpend : sp2.speechTimeout = some { fireAt := fa, text := tx })
    (htx : ¬ strTrim tx = "") :
    ((userTranscriptHandler now txt false s).currentThreadId = some tid) ∧
    (onRecognitionResult t "" sp = sp) ∧
    ((fireSpeechTimeout sp2).messages = sp2.messages ++
        [{ id := toString fa
           isUser := true
           content := tx
           timestamp := fa
           isTranscription := true
           final := some true }]) := by
  refine ⟨by simp [userTranscriptHandler, hthread], by simp [onRecognitionResult], ?_⟩
  simp [fireSpeechTimeout, hpend, handleSpeechMessage, htx]

/-- Witness for the amended C5. -/
theorem c5_no_silence_close_witness :
    ((userStartedSpeakingHandler (initState 0)).currentThreadId = some "thread-0") ∧
    ((onRecognitionResult 100 "find me" initSpeech).speechTimeout
      = some { fireAt := 1600, text := "find me" }) ∧
    (¬ strTrim "find me" = "") ∧
    (((userTranscriptHandler 100 "hello" false
        (userStartedSpeakingHandler (initState 0))).currentThreadId = some "thread-0") ∧
    (onRecognitionResult 50 "" initSpeech = initSpeech) ∧
    ((fireSpeechTimeout (onRecognitionResult 100 "find me" initSpeech)).messages
      = (onRecognitionResult 100 "find me" initSpeech).messages ++
          [{ id := toString 1600
             isUser := true
             content := "find me"
             timestamp := 1600
             isTranscription := true
             final := some true }])) :=
  ⟨by decide, by decide, by decide,
    c5_no_silence_close (userStartedSpeakingHandler (initState 0)) "thread-0" 100 "hello"
      (by decide) initSpeech (onRecognitionResult 100 "find me" initSpeech) 50 1600 "find me"
      (by decide) (by decide)⟩

/-! ### Claim C6: typed-message isolation -/

/-- Claim C6: submitting a non-blank typed message while a spoken thread is
open appends exactly one new final entry under the freshly minted thread id
(distinct from the open thread's id, which is the fresh-draw hypothesis on
the id source), leaves the open thread id unchanged, and leaves every
existing entry — in particular every entry of the spoken thread — unchanged
and in its original relative order. -/
theorem c6_typed_isolation (s : EngineState) (now : Nat) (connected : Bool) (tid : String)
    (hthread : s.currentThreadId = some tid)
    (hinput : ¬ strTrim s.inputValue = "")
    (hfresh : ∀ m ∈ s.messages,
      tupleMatch (threadName s.nonce) Speaker.user MsgType.text m = false)
    (hne : threadName s.nonce ≠ tid)
    (hsorted : SortedTs s.messages)
    (hle : ∀ m ∈ s.messages, m.timestamp ≤ now) :
    ((handleSendMessage now connected s).1.messages
      = s.messages ++ [(typedNM now s.inputValue (threadName s.nonce)).withTimestamp now]) ∧
    ((handleSendMessage now connected s).1.currentThreadId = some tid) ∧
    ((typedNM now s.inputValue (threadName s.nonce)).withTimestamp now).status
      = MsgStatus.final ∧
    ((typedNM now s.inputValue (threadName s.nonce)).withTimestamp now).threadId ≠ tid := by
  have hfi : findIdxOpt
      (tupleMatch (typedNM now s.inputValue (threadName s.nonce)).threadId
        (typedNM now s.inputValue (threadName s.nonce)).type
        (typedNM now s.inputValue (threadName s.nonce)).messageType) s.messages = none :=
    findIdxOpt_eq_none.mpr hfresh
  have hsorted2 : SortedTs (s.messages
      ++ [(typedNM now s.inputValue (threadName s.nonce)).withTimestamp now]) := by
    refine List.pairwise_append.mpr ⟨hsorted, by simp, ?_⟩
    intro x hx y hy
    rcases List.mem_singleton.mp hy with rfl
    simpa [NewMessage.withTimestamp] using hle x hx
  refine ⟨?_, ?_, by simp [typedNM, NewMessage.withTimestamp], by simpa [typedNM, NewMessage.withTimestamp] using hne⟩
  · simp only [handleSendMessage, if_neg hinput]
    rw [addOrUpdate_of_none now (typedNM now s.inputValue (threadName s.nonce))
      s.messages hfi, sortByTs_of_sorted _ hsorted2]
  · simp [handleSendMessage, if_neg hinput, hthread]

/-- State used by the C6 witness: thread-0 open with an interim entry in the
log, input "hi" pending, next fresh draw at nonce 1. -/
def c6State : EngineState :=
  { messages := (userTranscriptHandler 10 "hello" false
      (userStartedSpeakingHandler (initState 0))).messages
    currentThreadId := some "thread-0"
    inputValue := "hi"
    isLoading := false
    nonce := 1 }

/-- Witness for C6: typed submission "hi" at t = 40 while thread-0 is open
with an interim entry in the log. -/
theorem c6_typed_isolation_witness :
    (c6State.currentThreadId = some "thread-0") ∧
    (¬ strTrim c6State.inputValue = "") ∧
    (∀ m ∈ c6State.messages,
      tupleMatch (threadName c6State.nonce) Speaker.user MsgType.text m = false) ∧
    (threadName c6State.nonce ≠ "thread-0") ∧
    SortedTs c6State.messages ∧
    (∀ m ∈ c6State.messages, m.timestamp ≤ 40) ∧
    (((handleSendMessage 40 true c6State).1.messages
      = c6State.messages
        ++ [(typedNM 40 c6State.inputValue (threadName c6State.nonce)).withTimestamp 40]) ∧
    ((handleSendMessage 40 true c6State).1.currentThreadId = some "thread-0") ∧
    ((typedNM 40 c6State.inputValue (threadName c6State.nonce)).withTimestamp 40).status
      = MsgStatus.final ∧
    ((typedNM 40 c6State.inputValue (threadName c6State.nonce)).withTimestamp 40).threadId
      ≠ "thread-0") :=
  ⟨by decide, by decide, by decide, by decide, by decide, by decide,
    c6_typed_isolation c6State 40 true "thread-0"
      (by decide) (by decide) (by decide) (by decide) (by decide) (by decide)⟩

/-! ### The pipecat final-only variant (src/unnamed/part_000) -/

/-- Message of the final-only variant (part_000 lines 10-16). -/
structure PMessage where
  id : String
  text : String
  timestamp : Nat
  isOwn : Bool
  type : MsgType
deriving DecidableEq

/-- A transcript event payload as the handlers read it defensively:
`data?.text`, `data?.data?.text`, `data?.final`, `data?.data?.final`,
`data?.timestamp`, `data?.data?.timestamp`. A missing or non-string /
non-boolean / non-number field is `none`. -/
structure Payload where
  text : Option String
  final : Option Bool
  timestamp : Option Nat
  dataText : Option String
  dataFinal : Option Bool
  dataTimestamp : Option Nat
deriving DecidableEq

/-- JS `a || b` on an optional string: a missing or empty (falsy) string
falls through to the default. -/
def strOrElse (o : Option String) (d : String) : String :=
  match o with
  | some s => if s = "" then d else s
  | none => d

/-- JS `a || b` on an optional number: missing or zero (falsy) falls
through to the default. -/
def natOrElse (o : Option Nat) (d : Nat) : Nat :=
  match o with
  | some n => if n = 0 then d else n
  | none => d

/-- `data?.text || data?.data?.text || ""` (part_000 lines 83 and 119). -/
def resolveText (p : Payload) : String :=
  strOrElse p.text (strOrElse p.dataText "")

/-- `data?.final ?? data?.data?.final ?? false` (part_000 line 84). -/
def resolveFinal (p : Payload) : Bool :=
  p.final.getD (p.dataFinal.getD false)

/-- `data?.timestamp || data?.data?.timestamp || Date.now()`
(part_000 line 85). -/
def resolveTimestamp (p : Payload) (now : Nat) : Nat :=
  natOrElse p.timestamp (natOrElse p.dataTimestamp now)

/-- The UserTranscript handler of part_000 (lines 81-114): parse the payload
defensively, then append the trimmed transcript as an own transcription
message only when it is final and its text is nonempty with nonempty trim;
otherwise leave the log unchanged. -/
def userTranscriptV0 (p : Payload) (now : Nat) (msgs : List PMessage) : List PMessage :=
  if resolveFinal p = true ∧ ¬ resolveText p = "" ∧ ¬ strTrim (resolveText p) = "" then
    msgs ++ [{ id := "user-transcript-" ++ toString now
               text := strTrim (resolveText p)
               timestamp := resolveTimestamp p now
               isOwn := true
               type := MsgType.transcription }]
  else msgs

/-- The BotTranscript handler of part_000 (lines 117-139): append the trimmed
text as a bot transcription message only when the resolved text is nonempty
with nonempty trim; otherwise leave the log unchanged. -/
def botTranscriptV0 (p : Payload) (now : Nat) (msgs : List PMessage) : List PMessage :=
  if ¬ resolveText p = "" ∧ ¬ strTrim (resolveText p) = "" then
    msgs ++ [{ id := "bot-transcript-" ++ toString now
               text := strTrim (resolveText p)
               timestamp := now
               isOwn := false
               type := MsgType.transcription }]
  else msgs

/-- Result of the synchronous part of part_000's handleSendMessage. -/
structure V0SendResult where
  messages : List PMessage
  inputValue : String
  sendAttempted : Bool
deriving DecidableEq

/-- handleSendMessage of part_000 (lines 194-248): guard on blank input,
missing connection or missing client; otherwise clear the input, append the
typed message as an own text entry and fire the transport send
(`appendToContext`, fire-and-forget: `sendAttempted`). -/
def handleSendMessageV0 (input : String) (connected clientPresent : Bool) (now : Nat)
    (msgs : List PMessage) : V0SendResult :=
  if strTrim input = "" ∨ connected = false ∨ clientPresent = false then
    { messages := msgs, inputValue := input, sendAttempted := false }
  else
    { messages := msgs ++ [{ id := "user-text-" ++ toString now
                             text := strTrim input
                             timestamp := now
                             isOwn := true
                             type := MsgType.text }]
      inputValue := ""
      sendAttempted := true }

/-- The `appendToContext(...).catch` handler of part_000 (lines 222-234):
delivery of a typed message was rejected by the transport, so one visible
error entry attributed to the bot side is appended. -/
def sendFailureV0 (now : Nat) (msgs : List PMessage) : List PMessage :=
  msgs ++ [{ id := "error-" ++ toString now
             text := "Failed to send message. Please try again."
             timestamp := now
             isOwn := false
             type := MsgType.text }]

/-! ### Claim C8: send-failure recovery -/

/-- Claim C8: when the transport rejects a typed message, exactly one new
entry is appended — a text entry attributed to the assistant side
(`isOwn = false`, displayed as a completed message; this variant has neither
a status nor a thread field, so the error entry belongs to no thread) — and
every previously inserted entry, including the user's typed entry, is
preserved unchanged and in place; the log remains available for further
events. -/
theorem c8_send_failure_recovery (now : Nat) (msgs : List PMessage) :
    (sendFailureV0 now msgs
      = msgs ++ [{ id := "error-" ++ toString now
                   text := "Failed to send message. Please try again."
                   timestamp := now
                   isOwn := false
                   type := MsgType.text }]) ∧
    ((sendFailureV0 now msgs).length = msgs.length + 1) ∧
    (∀ m ∈ msgs, m ∈ sendFailureV0 now msgs) := by
  refine ⟨rfl, by simp [sendFailureV0], ?_⟩
  intro m hm
  simp [sendFailureV0, hm]

/-! ### Claim C9: malformed transcript payloads -/

/-- Claim C9: both transcript handlers are total over every payload shape
(missing text, final or timestamp fields are `none` and are absorbed by the
defensive `||`/`??` fallbacks), and a payload whose resolved text is empty or
whitespace-only leaves the message log unchanged in both handlers. -/
theorem c9_malformed_payload_dropped (p : Payload) (now : Nat) (msgs : List PMessage)
    (htext : strTrim (resolveText p) = "") :
    userTranscriptV0 p now msgs = msgs ∧ botTranscriptV0 p now msgs = msgs := by
  constructor
  · simp [userTranscriptV0, htext]
  · simp [botTranscriptV0, htext]

/-- Witness for C9: a payload carrying whitespace-only text and no final or
timestamp fields is dropped by both handlers. -/
theorem c9_malformed_payload_dropped_witness :
    (strTrim (resolveText { text := some "   "
                            final := none
                            timestamp := none
                            dataText := none
                            dataFinal := none
                            dataTimestamp := none }) = "") ∧
    (userTranscriptV0 { text := some "   "
                        final := none
                        timestamp := none
                        dataText := none
                        dataFinal := none
                        dataTimestamp := none } 100 [] = [] ∧
     botTranscriptV0 { text := some "   "
                       final := none
                       timestamp := none
                       dataText := none
                       dataFinal := none
                       dataTimestamp := none } 100 [] = []) :=
  ⟨by decide,
    c9_malformed_payload_dropped
      { text := some "   "
        final := none
        timestamp := none
        dataText := none
        dataFinal := none
        dataTimestamp := none } 100 [] (by decide)⟩

/-! ### Claim C10: empty or unready submission -/

/-- Claim C10: submitting with empty or whitespace-only input — or, in the
transport-connected variant, while not connected — is a complete no-op: the
log is unchanged, the input is not cleared, no send is attempted, and in the
thread-based variant the whole state is returned unchanged with no bot reply
scheduled. -/
theorem c10_empty_or_unready_noop (input : String) (connected clientPresent : Bool)
    (now : Nat) (msgs : List PMessage) (s : EngineState)
    (hv0 : strTrim input = "" ∨ connected = false)
    (hv3 : strTrim s.inputValue = "") :
    (handleSendMessageV0 input connected clientPresent now msgs
      = { messages := msgs, inputValue := input, sendAttempted := false }) ∧
    (handleSendMessage now connected s = (s, none)) := by
  constructor
  · rcases hv0 with h | h
    · simp [handleSendMessageV0, h]
    · simp [handleSendMessageV0, h]
  · simp [handleSendMessage, hv3]

/-- Witness for C10: whitespace-only input "  " while disconnected. -/
theorem c10_empty_or_unready_noop_witness :
    (strTrim "  " = "" ∨ false = false) ∧
    (strTrim (initState 0).inputValue = "") ∧
    ((handleSendMessageV0 "  " false true 100 []
      = { messages := [], inputValue := "  ", sendAttempted := false }) ∧
    (handleSendMessage 100 false (initState 0) = (initState 0, none))) :=
  ⟨by decide, by decide,
    c10_empty_or_unready_noop "  " false true 100 [] (initState 0)
      (by decide) (by decide)⟩

end Dwelling
